import Mathlib

/-!
Verification development for the 3d-file-converter repository.

The repository drives two host engines through two scripts:
  * `src/scripts/blender/export.py`  — the mesh-engine pipeline (obj/fbx/gltf/glb/dxf),
  * `src/scripts/freecad/export.py`  — the solid-CAD pipeline (dxf/step/stp/iges/igs/brep → stl/obj/ply).

Both scripts are shallowly embedded below.  The host engines themselves (the
capabilities `bpy.ops.*`, `importDXF.open`, `Part.insert`, `combined.tessellate`,
`mesh.write`, the filesystem) are external collaborators: their observable
results for one run are inputs of the model (fields of `BLEnv` / `FCEnv`), while
all control flow, dispatch, checks and diagnostics of the scripts are translated
line by line.  A run is modelled as the produced `Outcome` (the process exit
behaviour) together with a trace of externally visible events (`Ev`).
-/

namespace Conv3d

/-- Character-list helper: does the first list occur at the head of the second? -/
def startsWithSeq : List Char → List Char → Bool
  | [], _ => true
  | _ :: _, [] => false
  | a :: as, b :: bs => a == b && startsWithSeq as bs

/-- Character-list helper: does `needle` occur contiguously anywhere in `hay`?
Models the Python test `needle in hay` on byte strings. -/
def containsSeq (needle : List Char) : List Char → Bool
  | [] => startsWithSeq needle []
  | b :: bs => startsWithSeq needle (b :: bs) || containsSeq needle bs

/-- Suffix of `l` strictly after the last occurrence of `c` (the whole list when
`c` does not occur).  Used to take the basename after the last path separator. -/
def afterLast (c : Char) (l : List Char) : List Char :=
  l.foldl (fun acc ch => if ch = c then [] else acc ++ [ch]) []

/-- Index of the last `.` in the list, if any. -/
def lastDotIdx (l : List Char) : Option Nat :=
  (List.range l.length).foldl (fun acc i => if l.getD i ' ' = '.' then some i else acc) none

/-- Extension part of a basename, per `os.path.splitext`: the suffix from the
last dot, unless every character before that dot is itself a dot (so `.bashrc`
has no extension). -/
def extOf (base : List Char) : List Char :=
  match lastDotIdx base with
  | none => []
  | some i => if (base.take i).all (fun ch => ch = '.') then [] else base.drop i

/-- Model of `os.path.splitext(p)[1].lower()` as used by the solid-CAD script. -/
def pyExt (p : String) : String :=
  String.mk ((extOf (afterLast '/' p.data)).map Char.toLower)

/-- Diagnostic tag of a terminal condition.  Each constructor corresponds to one
distinct component-tagged message printed by one of the two scripts (or, for
`cleanupNullDeref`, to the uncaught exception raised inside the cleanup step). -/
inductive Diag where
  | configMissing
  | unsupportedInput
  | binaryDxf
  | importFailed
  | dxfNotFinished
  | emptyScene
  | noDocument
  | noShapes
  | caughtError
  | tessellationFailure
  | unsupportedOutput
  | exportFailed
  | artifactMissing
  | cleanupNullDeref
  deriving DecidableEq

/-- Externally visible events of a run, in order of occurrence. -/
inductive Ev where
  | importAttempt (fmt : String)
  | exportWrite (path : String)
  | closeDoc (name : String)
  deriving DecidableEq

/-- How the process terminates.  `failure` is a deliberate `sys.exit(1)` after a
printed diagnostic; `crash` is an uncaught Python exception (which also makes the
interpreter exit non-zero). -/
inductive Outcome where
  | success
  | failure (d : Diag)
  | crash (d : Diag)
  deriving DecidableEq

/-- Process exit code corresponding to an outcome. -/
def Outcome.exitCode : Outcome → Nat
  | .success => 0
  | .failure _ => 1
  | .crash _ => 1

/-! ## Mesh-engine pipeline (`src/scripts/blender/export.py`) -/

/-- Inputs of one run of the mesh-engine script: the four configuration values
and the observable results of each external capability it may invoke. -/
structure BLEnv where
  outputFilePath : String
  outputFileFormat : String
  inputFilePath : String
  inputFileFormat : String
  /-- Content of the input file (the script reads its first 22 bytes on the DXF path). -/
  inputBytes : List Char
  /-- Whether the invoked engine import capability raises. -/
  importRaises : Bool
  /-- Whether `bpy.ops.import_scene.dxf` returned the FINISHED status. -/
  dxfResultFinished : Bool
  /-- Value of `len(bpy.data.objects)` after import. -/
  objectCount : Nat
  /-- Whether the invoked engine export capability raises. -/
  exportRaises : Bool
  /-- Whether `os.path.exists(output_file_path)` holds after export. -/
  outputFileExists : Bool
  /-- Value of `os.path.getsize(output_file_path)` after export. -/
  outputFileSize : Nat

/-- Signature bytes the script searches for in the first 22 bytes of a DXF file. -/
def binaryDxfSig : List Char := "AutoCAD Binary DXF".data

/-- Import stage of the mesh-engine script (the `if input_file_format == ...`
chain).  `Sum.inl` means the script terminated during import with the given
outcome and trace; `Sum.inr` means import completed and the script continues
with the given trace. -/
def blenderImportStage (b : BLEnv) : (Outcome × List Ev) ⊕ (List Ev) :=
  if b.inputFileFormat = "obj" then
    if b.importRaises then .inl (.crash .importFailed, [.importAttempt b.inputFileFormat])
    else .inr [.importAttempt b.inputFileFormat]
  else if b.inputFileFormat = "fbx" then
    if b.importRaises then .inl (.crash .importFailed, [.importAttempt b.inputFileFormat])
    else .inr [.importAttempt b.inputFileFormat]
  else if b.inputFileFormat = "gltf" ∨ b.inputFileFormat = "glb" then
    if b.importRaises then .inl (.crash .importFailed, [.importAttempt b.inputFileFormat])
    else .inr [.importAttempt b.inputFileFormat]
  else if b.inputFileFormat = "dxf" then
    if containsSeq binaryDxfSig (b.inputBytes.take 22) then
      .inl (.failure .binaryDxf, [])
    else if b.importRaises then
      .inl (.failure .importFailed, [.importAttempt b.inputFileFormat])
    else if b.dxfResultFinished then .inr [.importAttempt b.inputFileFormat]
    else .inl (.failure .dxfNotFinished, [.importAttempt b.inputFileFormat])
  else .inl (.failure .unsupportedInput, [])

/-- Output formats with an export branch in the mesh-engine script. -/
def blSupportedOutput (f : String) : Bool :=
  f == "fbx" || f == "obj" || f == "glb" || f == "gltf" || f == "dxf"

/-- Continuation of the mesh-engine script after import: object-count check,
export dispatch, and output verification.  Note the verification step checks
only `os.path.exists`; the size is read for the log line but never compared. -/
def blenderAfterImport (b : BLEnv) (tr : List Ev) : Outcome × List Ev :=
  if b.objectCount = 0 then (.failure .emptyScene, tr)
  else if blSupportedOutput b.outputFileFormat then
    if b.exportRaises then (.crash .exportFailed, tr ++ [.exportWrite b.outputFilePath])
    else if b.outputFileExists then (.success, tr ++ [.exportWrite b.outputFilePath])
    else (.failure .artifactMissing, tr ++ [.exportWrite b.outputFilePath])
  else (.failure .unsupportedOutput, tr)

/-- The whole mesh-engine run. -/
def blenderRun (b : BLEnv) : Outcome × List Ev :=
  match blenderImportStage b with
  | .inl r => r
  | .inr tr => blenderAfterImport b tr

/-! ## Solid-CAD pipeline (`src/scripts/freecad/export.py`) -/

/-- Geometry of one scene object, as the solid-CAD script manipulates it: the
atomic shapes of the import, pairwise fusions (`combined.fuse(shape)`) and pairwise
compounds (`Part.makeCompound([combined, shape])`). -/
inductive Shape where
  | atom (id : Nat)
  | fused (a b : Shape)
  | compound (a b : Shape)
  deriving DecidableEq

/-- Result of one `shape.tessellate(0.1)` call: the vertex list and the face
list (each face a list of vertex indices). -/
structure Tessellation where
  vertices : List (Int × Int × Int)
  faces : List (List Nat)
  deriving DecidableEq

/-- Result of `combined.fuse(shape)` as observed by the script: `some` of the
union when the capability returns, `none` when it raises.  Which pairs fuse is
the business of the engine, modelled by the oracle `fuseOk`. -/
def fuse (fuseOk : Shape → Shape → Bool) (a b : Shape) : Option Shape :=
  if fuseOk a b then some (.fused a b) else none

/-- One step of the shape-combining loop: try `combined.fuse(shape)`; on an
exception fall back to `Part.makeCompound([combined, shape])`. -/
def combineStep (fuseOk : Shape → Shape → Bool) (acc sh : Shape) : Shape :=
  match fuse fuseOk acc sh with
  | some u => u
  | none => .compound acc sh

/-- The shape-combining loop of the script: start from the first shape and fold
the remaining shapes in document order. (For a single shape the loop body never
runs, so the combined shape is that shape unchanged.) -/
def combineShapes (fuseOk : Shape → Shape → Bool) (first : Shape) (rest : List Shape) : Shape :=
  rest.foldl (combineStep fuseOk) first

/-- One triangle facet as passed to `mesh.addFacet` (three vertex coordinates). -/
abbrev Facet := (Int × Int × Int) × (Int × Int × Int) × (Int × Int × Int)

/-- Default value only used to spell `vertices[i]` totally; every use is guarded
by an in-range check. -/
def vdefault : Int × Int × Int := (0, 0, 0)

/-- The facet-building loop of the primary tessellation path: for each face with
at least 3 indices, look up the first three vertex indices of the face and emit one
facet; a face with fewer than 3 indices is skipped.  An out-of-range vertex
index is the Python `IndexError`, which aborts the loop: result `none`. -/
def buildFacets (vs : List (Int × Int × Int)) : List (List Nat) → Option (List Facet)
  | [] => some []
  | f :: fs =>
    if 3 ≤ f.length then
      match vs[f.getD 0 0]?, vs[f.getD 1 0]?, vs[f.getD 2 0]?, buildFacets vs fs with
      | some v1, some v2, some v3, some rest => some ((v1, v2, v3) :: rest)
      | _, _, _, _ => none
    else buildFacets vs fs

/-- Export call performed by the solid-CAD script.  Every branch of its output
dispatch performs the same parameterless `mesh.write(output_path)`. -/
inductive ExportCall where
  | write (path : String)
  deriving DecidableEq

/-- The output-extension dispatch of the solid-CAD script, exactly as written:
`.stl`, `.obj` and `.ply` each get a `mesh.write(output_path)` branch, and the
final `else` branch ("default to STL") performs the same call. -/
def freecadExportDispatch (outputExt : String) (outputPath : String) : ExportCall :=
  if outputExt = ".stl" then .write outputPath
  else if outputExt = ".obj" then .write outputPath
  else if outputExt = ".ply" then .write outputPath
  else .write outputPath

/-- Output extensions named by an explicit branch of the solid-CAD export
dispatch (the export dispatch table of the engine, minus the catch-all default). -/
def fcRecognizedOutput (ext : String) : Bool :=
  ext == ".stl" || ext == ".obj" || ext == ".ply"

/-- Input extensions with an import branch in the solid-CAD script. -/
def fcSupportedInput (ext : String) : Bool :=
  ext == ".dxf" || ext == ".step" || ext == ".stp" || ext == ".iges" || ext == ".igs"
    || ext == ".brep"

/-- Inputs of one run of the solid-CAD script: the two configuration values and
the observable behaviour of each external capability it may invoke. -/
structure FCEnv where
  /-- Value of `os.environ.get("INPUT_FILE_PATH")`. -/
  inputPath : Option String
  /-- Value of `os.environ.get("OUTPUT_FILE_PATH")`. -/
  outputPath : Option String
  /-- Whether the invoked import capability (`importDXF.open` / `Part.insert`) raises. -/
  importRaises : Bool
  /-- Value of `FreeCAD.ActiveDocument` after import: the name of the document, or
  `none` when the engine reports no active document (a null handle). -/
  activeDoc : Option String
  /-- Geometry of each member of `doc.Objects`, in document order; `none` for an
  object without a usable `Shape` attribute. -/
  objects : List (Option Shape)
  /-- Which pairwise `fuse` calls succeed. -/
  fuseOk : Shape → Shape → Bool
  /-- Result of the first `combined.tessellate(0.1)` call, as a function of the
  shape it is called on.  Modelled separately from the second call because the
  capability is external and its result need not be reproducible. -/
  tessellate1 : Shape → Tessellation
  /-- Result of the second `combined.tessellate(0.1)` call, on the fallback path. -/
  tessellate2 : Shape → Tessellation
  /-- Whether `mesh.write(output_path)` raises. -/
  writeRaises : Bool
  /-- Whether `os.path.exists(output_path)` holds after the write. -/
  outputExists : Bool
  /-- Value of `os.path.getsize(output_path)` after the write. -/
  outputSize : Nat

/-- Python truthiness of an optional environment value: missing or empty is
falsy (`if not input_path or not output_path`). -/
def falsyOpt : Option String → Bool
  | none => true
  | some s => s.isEmpty

/-- Shape collection of the solid-CAD script: the `Shape` attributes of those
document objects that expose one, in document order. -/
def fcShapes (e : FCEnv) : List Shape := e.objects.filterMap id

/-- The CombinedShape of a run: `none` when there are no shapes (the script
exits before combining), otherwise the left-fold described in `combineShapes`. -/
def fcCombined (e : FCEnv) : Option Shape :=
  match fcShapes e with
  | [] => none
  | s :: rest => some (combineShapes e.fuseOk s rest)

/-- Facet count of the mesh built by the tessellation stage for the combined
shape: on the primary path (first tessellation has vertices) the facets built by
`buildFacets`, with `none` for an index error; on the fallback path a mesh
feature object built from the second tessellation call, one facet per face. -/
def fcFacetCount (e : FCEnv) (combined : Shape) : Option Nat :=
  if 0 < (e.tessellate1 combined).vertices.length then
    (buildFacets (e.tessellate1 combined).vertices (e.tessellate1 combined).faces).map
      List.length
  else
    some (e.tessellate2 combined).faces.length

/-- Body of the `try` block of the solid-CAD script.  Returns the pending outcome,
the event trace produced inside the block, and the binding of the `doc` variable
at the moment the `finally` clause runs (`none` when `doc` was rebound to a null
`ActiveDocument`).  The single `except Exception` handler turns any capability
exception (`caughtError`) into a printed message and `sys.exit(1)`; `sys.exit`
itself raises `SystemExit`, which that handler does not catch, so deliberate
exits keep their own diagnostic. -/
def freecadTry (e : FCEnv) (inExt outExt op : String) : Outcome × List Ev × Option String :=
  if fcSupportedInput inExt then
    if e.importRaises then (.failure .caughtError, [.importAttempt inExt], some "Conversion")
    else
      match e.activeDoc with
      | none => (.failure .noDocument, [.importAttempt inExt], none)
      | some dn =>
        match fcShapes e with
        | [] => (.failure .noShapes, [.importAttempt inExt], some dn)
        | s :: rest =>
          match fcFacetCount e (combineShapes e.fuseOk s rest) with
          | none => (.failure .caughtError, [.importAttempt inExt], some dn)
          | some nf =>
            if nf = 0 then (.failure .tessellationFailure, [.importAttempt inExt], some dn)
            else
              match freecadExportDispatch outExt op with
              | .write p =>
                if e.writeRaises then
                  (.failure .caughtError, [.importAttempt inExt, .exportWrite p], some dn)
                else if e.outputExists ∧ 0 < e.outputSize then
                  (.success, [.importAttempt inExt, .exportWrite p], some dn)
                else
                  (.failure .artifactMissing, [.importAttempt inExt, .exportWrite p], some dn)
  else (.failure .unsupportedInput, [], some "Conversion")

/-- The whole solid-CAD run: configuration check, extension parsing, the `try`
body, then the unconditional `finally: FreeCAD.closeDocument(doc.Name)`.  When
`doc` is a document the close succeeds and the pending outcome stands; when
`doc` is null the attribute access `doc.Name` raises inside `finally`, replacing
the pending outcome with an uncaught-exception crash, and no close happens. -/
def freecadRun (e : FCEnv) : Outcome × List Ev :=
  if falsyOpt e.inputPath ∨ falsyOpt e.outputPath then (.failure .configMissing, [])
  else
    match
      freecadTry e (pyExt (e.inputPath.getD "")) (pyExt (e.outputPath.getD ""))
        (e.outputPath.getD "") with
    | (pending, tr, some dn) => (pending, tr ++ [.closeDoc dn])
    | (_, tr, none) => (.crash .cleanupNullDeref, tr)

/-! ## Concrete runs used to instantiate the claims -/

/-- Solid-CAD run requesting the unrecognized output extension `.xyz`, with
every external capability behaving well. -/
def envC1x : FCEnv :=
  { inputPath := some "in.step"
    outputPath := some "out.xyz"
    importRaises := false
    activeDoc := some "Conversion"
    objects := [some (.atom 0)]
    fuseOk := fun _ _ => true
    tessellate1 := fun _ => ⟨[(0, 0, 0), (1, 0, 0), (0, 1, 0)], [[0, 1, 2]]⟩
    tessellate2 := fun _ => ⟨[], []⟩
    writeRaises := false
    outputExists := true
    outputSize := 12 }

/-- Mesh-engine run requesting the unsupported output format `xyz`. -/
def bC1 : BLEnv :=
  { outputFilePath := "out.xyz"
    outputFileFormat := "xyz"
    inputFilePath := "in.obj"
    inputFileFormat := "obj"
    inputBytes := []
    importRaises := false
    dxfResultFinished := true
    objectCount := 1
    exportRaises := false
    outputFileExists := true
    outputFileSize := 9 }

/-- Mesh-engine run whose export leaves an existing but empty (0-byte) output file. -/
def envC2 : BLEnv :=
  { outputFilePath := "out.glb"
    outputFileFormat := "glb"
    inputFilePath := "in.obj"
    inputFileFormat := "obj"
    inputBytes := []
    importRaises := false
    dxfResultFinished := true
    objectCount := 2
    exportRaises := false
    outputFileExists := true
    outputFileSize := 0 }

/-- Well-behaved solid-CAD run (used to instantiate the amended output-verifier claim). -/
def envC2f : FCEnv :=
  { inputPath := some "in.step"
    outputPath := some "out.stl"
    importRaises := false
    activeDoc := some "Conversion"
    objects := [some (.atom 0)]
    fuseOk := fun _ _ => true
    tessellate1 := fun _ => ⟨[(0, 0, 0), (1, 0, 0), (0, 1, 0)], [[0, 1, 2]]⟩
    tessellate2 := fun _ => ⟨[], []⟩
    writeRaises := false
    outputExists := true
    outputSize := 12 }

/-- Solid-CAD run whose primary tessellation yields no vertices but whose
fallback tessellation yields one facet. -/
def eC3a : FCEnv :=
  { inputPath := some "in.step"
    outputPath := some "out.stl"
    importRaises := false
    activeDoc := some "Conversion"
    objects := [some (.atom 0)]
    fuseOk := fun _ _ => true
    tessellate1 := fun _ => ⟨[], []⟩
    tessellate2 := fun _ => ⟨[(0, 0, 0), (1, 0, 0), (0, 1, 0)], [[0, 1, 2]]⟩
    writeRaises := false
    outputExists := true
    outputSize := 12 }

/-- Solid-CAD run where both tessellation paths yield nothing. -/
def eC3b : FCEnv :=
  { inputPath := some "in.step"
    outputPath := some "out.stl"
    importRaises := false
    activeDoc := some "Conversion"
    objects := [some (.atom 0)]
    fuseOk := fun _ _ => true
    tessellate1 := fun _ => ⟨[], []⟩
    tessellate2 := fun _ => ⟨[], []⟩
    writeRaises := false
    outputExists := true
    outputSize := 12 }

/-- Solid-CAD run with two shapes (used to instantiate the normalizer claim). -/
def eC4 : FCEnv :=
  { inputPath := some "in.step"
    outputPath := some "out.stl"
    importRaises := false
    activeDoc := some "Conversion"
    objects := [some (.atom 0), none, some (.atom 1)]
    fuseOk := fun _ _ => false
    tessellate1 := fun _ => ⟨[(0, 0, 0), (1, 0, 0), (0, 1, 0)], [[0, 1, 2]]⟩
    tessellate2 := fun _ => ⟨[], []⟩
    writeRaises := false
    outputExists := true
    outputSize := 12 }

/-- Mesh-engine run fed a DXF file carrying the binary-DXF signature. -/
def bC5 : BLEnv :=
  { outputFilePath := "out.obj"
    outputFileFormat := "obj"
    inputFilePath := "drawing.dxf"
    inputFileFormat := "dxf"
    inputBytes := "AutoCAD Binary DXF\x0d\x0a\x1a\x00rest-of-file".data
    importRaises := false
    dxfResultFinished := true
    objectCount := 3
    exportRaises := false
    outputFileExists := true
    outputFileSize := 9 }

/-- Mesh-engine run whose import succeeds but yields zero objects. -/
def bC6 : BLEnv :=
  { outputFilePath := "out.glb"
    outputFileFormat := "glb"
    inputFilePath := "empty.fbx"
    inputFileFormat := "fbx"
    inputBytes := []
    importRaises := false
    dxfResultFinished := true
    objectCount := 0
    exportRaises := false
    outputFileExists := true
    outputFileSize := 9 }

/-- Solid-CAD run whose import succeeds but whose document has no objects with geometry. -/
def eC6 : FCEnv :=
  { inputPath := some "in.iges"
    outputPath := some "out.stl"
    importRaises := false
    activeDoc := some "Conversion"
    objects := [none, none]
    fuseOk := fun _ _ => true
    tessellate1 := fun _ => ⟨[], []⟩
    tessellate2 := fun _ => ⟨[], []⟩
    writeRaises := false
    outputExists := true
    outputSize := 12 }

/-- Solid-CAD run where the engine reports no active document after a DXF import. -/
def eC7 : FCEnv :=
  { inputPath := some "in.dxf"
    outputPath := some "out.stl"
    importRaises := false
    activeDoc := none
    objects := []
    fuseOk := fun _ _ => true
    tessellate1 := fun _ => ⟨[], []⟩
    tessellate2 := fun _ => ⟨[], []⟩
    writeRaises := false
    outputExists := true
    outputSize := 12 }

/-- Solid-CAD run with a null active document after a STEP import. -/
def eC10 : FCEnv :=
  { inputPath := some "part.step"
    outputPath := some "part.stl"
    importRaises := false
    activeDoc := none
    objects := []
    fuseOk := fun _ _ => true
    tessellate1 := fun _ => ⟨[], []⟩
    tessellate2 := fun _ => ⟨[], []⟩
    writeRaises := false
    outputExists := true
    outputSize := 12 }

/-! ## Helper lemmas -/

/-- Every termination inside the mesh-engine import stage is non-zero and
happens before any write on the output path. -/
lemma blenderImportStage_inl_spec (b : BLEnv) (o : Outcome) (tr : List Ev)
    (h : blenderImportStage b = .inl (o, tr)) :
    o.exitCode = 1 ∧ ∀ p, Ev.exportWrite p ∉ tr := by
  unfold blenderImportStage at h
  repeat' split at h
  all_goals simp at h
  all_goals obtain ⟨rfl, rfl⟩ := h
  all_goals simp [Outcome.exitCode]

/-- When the mesh-engine import stage completes, the trace so far holds no
write on the output path. -/
lemma blenderImportStage_inr_trace (b : BLEnv) (tr : List Ev)
    (h : blenderImportStage b = .inr tr) :
    ∀ p, Ev.exportWrite p ∉ tr := by
  unfold blenderImportStage at h
  repeat' split at h
  all_goals simp at h
  all_goals subst h
  all_goals simp

/-- Every branch of the solid-CAD export dispatch performs the same
parameterless write of the output path. -/
lemma freecadExportDispatch_write (ext op : String) :
    freecadExportDispatch ext op = ExportCall.write op := by
  unfold freecadExportDispatch
  repeat' split
  all_goals rfl

/-- The solid-CAD `try` body reports success only after observing an existing,
non-empty output file. -/
lemma freecadTry_success_inv (e : FCEnv) (i o p : String)
    (h : (freecadTry e i o p).1 = Outcome.success) :
    e.outputExists = true ∧ 0 < e.outputSize := by
  unfold freecadTry at h
  repeat' split at h
  all_goals simp_all

/-- The whole solid-CAD run reports success only after observing an existing,
non-empty output file. -/
lemma freecadRun_success_inv (e : FCEnv) (h : (freecadRun e).1 = Outcome.success) :
    e.outputExists = true ∧ 0 < e.outputSize := by
  unfold freecadRun at h
  split at h
  · simp at h
  · split at h
    case _ pending tr dn heq =>
      refine freecadTry_success_inv e (pyExt (e.inputPath.getD ""))
        (pyExt (e.outputPath.getD "")) (e.outputPath.getD "") ?_
      rw [heq]
      simpa using h
    case _ tr heq => simp at h

/-- The mesh-engine run reports success only after observing an existing output
file (its size is never compared). -/
lemma blenderRun_success_inv (b : BLEnv) (h : (blenderRun b).1 = Outcome.success) :
    b.outputFileExists = true := by
  unfold blenderRun at h
  split at h
  case _ r heq =>
    obtain ⟨o, tr⟩ := r
    have hspec := blenderImportStage_inl_spec b o tr heq
    simp at h
    rw [h] at hspec
    simp [Outcome.exitCode] at hspec
  case _ tr heq =>
    unfold blenderAfterImport at h
    repeat' split at h
    all_goals simp_all

/-! ## Claims -/

/-- Claim C1, counterexample.  The claim says every conversion request whose
outputFormat is not in the export dispatch table of the engine terminates non-zero
before any file I/O on the output path.  In the solid-CAD engine this fails: a
run with output path `out.xyz` — an extension outside the `.stl`/`.obj`/`.ply`
dispatch table — falls through to the default branch, writes the output path
and exits 0. -/
theorem C1_counterexample :
    fcRecognizedOutput (pyExt "out.xyz") = false
    ∧ (freecadRun envC1x).1 = Outcome.success
    ∧ ((freecadRun envC1x).1).exitCode = 0
    ∧ Ev.exportWrite "out.xyz" ∈ (freecadRun envC1x).2 := by
  decide

/-- Claim C1, amended.  In the mesh-engine pipeline an unsupported outputFormat
does terminate the run non-zero with no export write ever attempted on the
output path; in the solid-CAD pipeline every output extension (recognized or
not) leads to the identical `mesh.write(output_path)` call instead of an
error. -/
theorem C1_amended :
    (∀ b : BLEnv, blSupportedOutput b.outputFileFormat = false →
      ((blenderRun b).1).exitCode = 1 ∧ ∀ p, Ev.exportWrite p ∉ (blenderRun b).2)
    ∧ (∀ ext op, freecadExportDispatch ext op = ExportCall.write op) := by
  constructor
  · intro b hb
    unfold blenderRun
    cases h : blenderImportStage b with
    | inl r =>
      obtain ⟨o, tr⟩ := r
      simpa using blenderImportStage_inl_spec b o tr h
    | inr tr =>
      have htr := blenderImportStage_inr_trace b tr h
      by_cases hc : b.objectCount = 0
      · simp only [blenderAfterImport, hc, if_true, if_pos]
        exact ⟨rfl, htr⟩
      · simp only [blenderAfterImport, if_neg hc, hb, Bool.false_eq_true, if_false]
        exact ⟨rfl, htr⟩
  · exact freecadExportDispatch_write

/-- Claim C1, witness for the amended statement at a concrete unsupported
mesh-engine output format and a concrete unrecognized solid-CAD extension. -/
theorem C1_amended_witness :
    (((blenderRun bC1).1).exitCode = 1 ∧ ∀ p, Ev.exportWrite p ∉ (blenderRun bC1).2)
    ∧ freecadExportDispatch ".xyz" "out.xyz" = ExportCall.write "out.xyz" :=
  ⟨C1_amended.1 bC1 (by decide), C1_amended.2 ".xyz" "out.xyz"⟩

/-- Claim C2, counterexample.  The claim says the output verifier checks both
existence and size > 0 in every conversion run.  The mesh-engine verifier only
checks existence: a run whose export leaves an existing 0-byte file is reported
as success with exit 0. -/
theorem C2_counterexample :
    envC2.outputFileExists = true ∧ envC2.outputFileSize = 0
    ∧ (blenderRun envC2).1 = Outcome.success
    ∧ ((blenderRun envC2).1).exitCode = 0 := by
  decide

/-- Claim C2, amended.  The solid-CAD verifier checks existence and size > 0
(success implies both); the mesh-engine verifier checks existence only — its
outcome and trace are entirely independent of the observed output size. -/
theorem C2_amended :
    (∀ e : FCEnv, (freecadRun e).1 = Outcome.success →
      e.outputExists = true ∧ 0 < e.outputSize)
    ∧ (∀ b : BLEnv, (blenderRun b).1 = Outcome.success → b.outputFileExists = true)
    ∧ (∀ (b : BLEnv) (n : Nat), blenderRun { b with outputFileSize := n } = blenderRun b) := by
  refine ⟨freecadRun_success_inv, blenderRun_success_inv, ?_⟩
  intro b n
  cases b
  rfl

/-- Claim C2, witness for the amended statement at concrete successful runs. -/
theorem C2_amended_witness :
    (envC2f.outputExists = true ∧ 0 < envC2f.outputSize)
    ∧ envC2.outputFileExists = true
    ∧ blenderRun { envC2 with outputFileSize := 7 } = blenderRun envC2 :=
  ⟨C2_amended.1 envC2f (by decide), C2_amended.2.1 envC2 (by decide),
    C2_amended.2.2 envC2 7⟩

/-- Claim C3.  In the solid-CAD pipeline, when the primary tessellation of the
CombinedShape yields an empty vertex list, the fallback path builds a mesh
feature from a second tessellation call on the same combined shape: if that
fallback yields at least one facet the run succeeds (granted the later export
and verification behave), and if both paths yield zero facets the run ends with
a non-zero exit carrying the tessellation-failure diagnostic. -/
theorem C3_tessellation_fallback (e : FCEnv) (dn : String) (c : Shape)
    (h1 : falsyOpt e.inputPath = false) (h2 : falsyOpt e.outputPath = false)
    (h3 : fcSupportedInput (pyExt (e.inputPath.getD "")) = true)
    (h4 : e.importRaises = false)
    (h5 : e.activeDoc = some dn)
    (h6 : fcCombined e = some c)
    (h7 : (e.tessellate1 c).vertices = []) :
    (1 ≤ (e.tessellate2 c).faces.length → e.writeRaises = false →
      e.outputExists = true → 0 < e.outputSize → (freecadRun e).1 = Outcome.success)
    ∧ ((e.tessellate2 c).faces.length = 0 →
      (freecadRun e).1 = Outcome.failure Diag.tessellationFailure
      ∧ ((freecadRun e).1).exitCode ≠ 0) := by
  obtain ⟨s, rest, hfs, hc⟩ :
      ∃ s rest, fcShapes e = s :: rest ∧ c = combineShapes e.fuseOk s rest := by
    unfold fcCombined at h6
    cases hfs : fcShapes e with
    | nil => rw [hfs] at h6; simp at h6
    | cons s rest =>
      rw [hfs] at h6
      simp at h6
      exact ⟨s, rest, rfl, h6.symm⟩
  subst hc
  have hcount : fcFacetCount e (combineShapes e.fuseOk s rest)
      = some (e.tessellate2 (combineShapes e.fuseOk s rest)).faces.length := by
    unfold fcFacetCount
    rw [h7]
    simp
  constructor
  · intro hf hw he hsz
    unfold freecadRun freecadTry
    simp only [h1, h2, h3, h4, h5, hfs, hcount, freecadExportDispatch_write, hw, he, hsz]
    have hnz : ¬ (e.tessellate2 (combineShapes e.fuseOk s rest)).faces.length = 0 := by
      omega
    simp [hnz, hsz]
  · intro hz
    unfold freecadRun freecadTry
    simp only [h1, h2, h3, h4, h5, hfs, hcount, hz]
    simp [Outcome.exitCode]

/-- Claim C3, witness: a run whose primary tessellation is empty succeeds when
the fallback yields one facet, and a run where both paths yield nothing fails
with the tessellation-failure diagnostic. -/
theorem C3_tessellation_fallback_witness :
    (freecadRun eC3a).1 = Outcome.success
    ∧ (freecadRun eC3b).1 = Outcome.failure Diag.tessellationFailure :=
  ⟨(C3_tessellation_fallback eC3a "Conversion" (Shape.atom 0) (by decide) (by decide)
      (by decide) (by decide) (by decide) (by decide) (by decide)).1
      (by decide) (by decide) (by decide) (by decide),
    ((C3_tessellation_fallback eC3b "Conversion" (Shape.atom 0) (by decide) (by decide)
      (by decide) (by decide) (by decide) (by decide) (by decide)).2 (by decide)).1⟩

/-- Claim C4.  The solid-CAD shape reduction: a single shape is the CombinedShape
unchanged; for more shapes the reduction is the left-fold of the pairwise step in
document order; the step yields the union when `fuse` returns and falls back to
wrapping the pair in a compound when `fuse` raises; and the reduction is total —
whenever at least one shape exists the CombinedShape of the run is defined. -/
theorem C4_normalizer :
    (∀ (f : Shape → Shape → Bool) (s : Shape), combineShapes f s [] = s)
    ∧ (∀ f s rest, combineShapes f s rest = rest.foldl (combineStep f) s)
    ∧ (∀ f s sh rest,
        combineShapes f s (sh :: rest) = combineShapes f (combineStep f s sh) rest)
    ∧ (∀ f s sh, fuse f s sh = none → combineStep f s sh = Shape.compound s sh)
    ∧ (∀ f s sh u, fuse f s sh = some u → combineStep f s sh = u)
    ∧ (∀ e : FCEnv, fcShapes e ≠ [] → (fcCombined e).isSome = true) := by
  refine ⟨fun f s => rfl, fun f s rest => rfl, fun f s sh rest => rfl, ?_, ?_, ?_⟩
  · intro f s sh h
    unfold combineStep
    rw [h]
  · intro f s sh u h
    unfold combineStep
    rw [h]
  · intro e h
    unfold fcCombined
    cases hfs : fcShapes e with
    | nil => exact absurd hfs h
    | cons s rest => rfl

/-- Claim C4, witness: a failing pair is compounded, a succeeding pair is fused,
and a run with two shapes gets a CombinedShape. -/
theorem C4_normalizer_witness :
    combineStep (fun _ _ => false) (Shape.atom 0) (Shape.atom 1)
      = Shape.compound (Shape.atom 0) (Shape.atom 1)
    ∧ combineStep (fun _ _ => true) (Shape.atom 0) (Shape.atom 1)
      = Shape.fused (Shape.atom 0) (Shape.atom 1)
    ∧ (fcCombined eC4).isSome = true :=
  ⟨C4_normalizer.2.2.2.1 (fun _ _ => false) (Shape.atom 0) (Shape.atom 1) (by decide),
    C4_normalizer.2.2.2.2.1 (fun _ _ => true) (Shape.atom 0) (Shape.atom 1)
      (Shape.fused (Shape.atom 0) (Shape.atom 1)) (by decide),
    C4_normalizer.2.2.2.2.2 eC4 (by decide)⟩

/-- Claim C5.  On the mesh-engine DXF path, the first 22 bytes of the input file
are inspected before any import attempt; if they contain the binary-DXF
signature the run terminates non-zero with an empty event trace — zero import
attempts — whatever the requested output format. -/
theorem C5_binary_dxf_preflight (b : BLEnv)
    (h1 : b.inputFileFormat = "dxf")
    (h2 : containsSeq binaryDxfSig (b.inputBytes.take 22) = true) :
    (blenderRun b).1 = Outcome.failure Diag.binaryDxf
    ∧ ((blenderRun b).1).exitCode ≠ 0
    ∧ (blenderRun b).2 = [] := by
  unfold blenderRun blenderImportStage
  simp [h1, h2, Outcome.exitCode]

/-- Claim C5, witness: a concrete binary-DXF-signed input is rejected with no
events at all. -/
theorem C5_binary_dxf_preflight_witness :
    (blenderRun bC5).1 = Outcome.failure Diag.binaryDxf
    ∧ ((blenderRun bC5).1).exitCode ≠ 0
    ∧ (blenderRun bC5).2 = [] :=
  C5_binary_dxf_preflight bC5 (by decide) (by decide)

/-- Claim C6.  When the import step completes without raising but the scene
holds zero usable objects/shapes, both pipelines terminate non-zero with the
empty-scene diagnostic, which is distinct from every import-failure
diagnostic. -/
theorem C6_empty_scene (b : BLEnv) (trb : List Ev) (e : FCEnv) (dn : String)
    (hb0 : blenderImportStage b = Sum.inr trb)
    (hb1 : b.objectCount = 0)
    (h1 : falsyOpt e.inputPath = false) (h2 : falsyOpt e.outputPath = false)
    (h3 : fcSupportedInput (pyExt (e.inputPath.getD "")) = true)
    (h4 : e.importRaises = false)
    (h5 : e.activeDoc = some dn)
    (h6 : fcShapes e = []) :
    (blenderRun b).1 = Outcome.failure Diag.emptyScene
    ∧ ((blenderRun b).1).exitCode ≠ 0
    ∧ (freecadRun e).1 = Outcome.failure Diag.noShapes
    ∧ ((freecadRun e).1).exitCode ≠ 0
    ∧ Diag.emptyScene ≠ Diag.importFailed
    ∧ Diag.emptyScene ≠ Diag.dxfNotFinished
    ∧ Diag.noShapes ≠ Diag.caughtError := by
  have hbl : (blenderRun b).1 = Outcome.failure Diag.emptyScene := by
    unfold blenderRun
    rw [hb0]
    unfold blenderAfterImport
    simp [hb1]
  have hfc : (freecadRun e).1 = Outcome.failure Diag.noShapes := by
    unfold freecadRun freecadTry
    simp [h1, h2, h3, h4, h5, h6]
  refine ⟨hbl, ?_, hfc, ?_, by decide, by decide, by decide⟩
  · rw [hbl]; decide
  · rw [hfc]; decide

/-- Claim C6, witness: a mesh-engine run importing zero objects and a solid-CAD
run whose document objects expose no geometry. -/
theorem C6_empty_scene_witness :
    (blenderRun bC6).1 = Outcome.failure Diag.emptyScene
    ∧ (freecadRun eC6).1 = Outcome.failure Diag.noShapes :=
  ⟨(C6_empty_scene bC6 [Ev.importAttempt "fbx"] eC6 "Conversion" (by decide) (by decide)
      (by decide) (by decide) (by decide) (by decide) (by decide) (by decide)).1,
    (C6_empty_scene bC6 [Ev.importAttempt "fbx"] eC6 "Conversion" (by decide) (by decide)
      (by decide) (by decide) (by decide) (by decide) (by decide) (by decide)).2.2.1⟩

/-- Claim C7, code evaluated at the failing input.  The claim says the host
document opened for the run is closed on every exit path.  In the solid-CAD
run `eC7` the import succeeds but the engine reports no active document; the
script exits via `sys.exit(1)`, and the unconditional cleanup step then
dereferences the null handle (`doc.Name`), raising instead of closing — the
trace of the run contains no close event at all, although a document was
opened. -/
theorem C7_cleanup_not_total :
    (freecadRun eC7).1 = Outcome.crash Diag.cleanupNullDeref
    ∧ ((freecadRun eC7).1).exitCode ≠ 0
    ∧ (freecadRun eC7).2 = [Ev.importAttempt ".dxf"] := by
  decide

/-- Claim C8.  The facet-building loop of the primary tessellation path emits
exactly one facet per face with at least 3 vertex indices, built from only that
first three indices of that face (longer faces are not fan-triangulated beyond them),
and no facet for a face with fewer than 3 indices. -/
theorem C8_one_facet_per_face (vs : List (Int × Int × Int)) (faces : List (List Nat))
    (h : ∀ f ∈ faces, 3 ≤ f.length →
      f.getD 0 0 < vs.length ∧ f.getD 1 0 < vs.length ∧ f.getD 2 0 < vs.length) :
    buildFacets vs faces = some (faces.filterMap (fun f =>
      if 3 ≤ f.length then
        some (vs.getD (f.getD 0 0) vdefault, vs.getD (f.getD 1 0) vdefault,
          vs.getD (f.getD 2 0) vdefault)
      else none)) := by
  induction faces with
  | nil => rfl
  | cons f fs ih =>
    have hfs : ∀ g ∈ fs, 3 ≤ g.length →
        g.getD 0 0 < vs.length ∧ g.getD 1 0 < vs.length ∧ g.getD 2 0 < vs.length :=
      fun g hg => h g (by simp [hg])
    by_cases h3 : 3 ≤ f.length
    · obtain ⟨ha, hb, hc⟩ := h f (by simp) h3
      have e0 : vs[f.getD 0 0]? = some (vs.getD (f.getD 0 0) vdefault) := by
        rw [List.getElem?_eq_getElem ha, List.getD_eq_getElem vs vdefault ha]
      have e1 : vs[f.getD 1 0]? = some (vs.getD (f.getD 1 0) vdefault) := by
        rw [List.getElem?_eq_getElem hb, List.getD_eq_getElem vs vdefault hb]
      have e2 : vs[f.getD 2 0]? = some (vs.getD (f.getD 2 0) vdefault) := by
        rw [List.getElem?_eq_getElem hc, List.getD_eq_getElem vs vdefault hc]
      unfold buildFacets
      rw [if_pos h3, e0, e1, e2, ih hfs]
      simp [List.filterMap_cons, h3]
    · unfold buildFacets
      rw [if_neg h3, ih hfs]
      simp [List.filterMap_cons, h3]

/-- Claim C8, witness: a quad face contributes a single facet from its first
three indices and a 2-index face contributes nothing. -/
theorem C8_one_facet_per_face_witness :
    buildFacets [(0, 0, 0), (1, 0, 0), (0, 1, 0), (1, 1, 0)] [[0, 1, 2, 3], [0, 1], [1, 2, 3]]
      = some [((0, 0, 0), (1, 0, 0), (0, 1, 0)), ((1, 0, 0), (0, 1, 0), (1, 1, 0))] := by
  rw [C8_one_facet_per_face [(0, 0, 0), (1, 0, 0), (0, 1, 0), (1, 1, 0)]
    [[0, 1, 2, 3], [0, 1], [1, 2, 3]] (by decide)]
  rfl

/-- Claim C9.  The solid-CAD export dispatch is behaviorally vacuous: every
output extension, recognized or not, yields the identical parameterless
`mesh.write(output_path)` call, so all dispatch branches are equivalent. -/
theorem C9_export_dispatch_vacuous :
    ∀ ext op : String, freecadExportDispatch ext op = ExportCall.write op
      ∧ ∀ ext2, freecadExportDispatch ext op = freecadExportDispatch ext2 op := by
  intro ext op
  refine ⟨freecadExportDispatch_write ext op, fun ext2 => ?_⟩
  rw [freecadExportDispatch_write, freecadExportDispatch_write]

/-- Claim C10.  In the solid-CAD pipeline, when the engine reports no active
document after a successful import call, the run exits non-zero, but the
unconditional cleanup step dereferences the null document handle and raises:
the process ends in an uncaught-exception crash and no close-document event ever
occurs — the cleanup step is not total on this error path. -/
theorem C10_cleanup_null_deref (e : FCEnv)
    (h1 : falsyOpt e.inputPath = false) (h2 : falsyOpt e.outputPath = false)
    (h3 : fcSupportedInput (pyExt (e.inputPath.getD "")) = true)
    (h4 : e.importRaises = false)
    (h5 : e.activeDoc = none) :
    (freecadRun e).1 = Outcome.crash Diag.cleanupNullDeref
    ∧ ((freecadRun e).1).exitCode ≠ 0
    ∧ ∀ n, Ev.closeDoc n ∉ (freecadRun e).2 := by
  unfold freecadRun freecadTry
  simp [h1, h2, h3, h4, h5, Outcome.exitCode]

/-- Claim C10, witness at a concrete run with a null active document. -/
theorem C10_cleanup_null_deref_witness :
    (freecadRun eC10).1 = Outcome.crash Diag.cleanupNullDeref
    ∧ ((freecadRun eC10).1).exitCode ≠ 0
    ∧ ∀ n, Ev.closeDoc n ∉ (freecadRun eC10).2 :=
  C10_cleanup_null_deref eC10 (by decide) (by decide) (by decide) (by decide) (by decide)

end Conv3d
